import Mathlib

/-!
Verification development for the mcp-google-ads repository.

The Python sources under src/ are shallowly embedded below:
pure functions become Lean functions, the filesystem / OAuth library /
HTTP transport are explicit oracle parameters (a `World` record or a
function argument), and raised exceptions become `Except` errors.
Python machine integers are modelled as `Int`/`Nat` (no overflow occurs
in the modelled code) and Python floats as exact rationals, since every
float that the code manufactures comes from a short decimal literal.
-/

/-! ## JSON-like values (Python dicts produced by json parsing)

`JVal` models the Python values that flow through the client: results of
json parsing plus the int/float values the reporting layer computes.
A row of a query result is a dict, modelled as an association list
(Python dicts preserve insertion order and have unique keys). -/

inductive JVal where
  | null
  | b (v : Bool)
  | s (v : String)
  | i (v : Int)
  | rat (v : ℚ)
  | arr (xs : List JVal)
  | obj (kvs : List (String × JVal))

abbrev Row := List (String × JVal)

/-- First-match association-list lookup; models Python dict lookup
(keys of a Python dict are unique, so first match is the match). -/
def lookupJ (kvs : Row) (k : String) : Option JVal :=
  match kvs with
  | [] => none
  | (k2, v) :: rest => if k2 = k then some v else lookupJ rest k

/-- Models Python dict.get(k): the value, or None when the key is absent. -/
def dictGet (kvs : Row) (k : String) : JVal := (lookupJ kvs k).getD .null

/-- Models Python dict.get(k, d) with an explicit default. -/
def dictGetD (kvs : Row) (k : String) (d : JVal) : JVal := (lookupJ kvs k).getD d

/-! ## format_customer_id (src/api_client.py lines 30-35, identical copy in
src/tools/client.py lines 21-26)

The Python is: str(); two .replace calls that both delete the double-quote
character; keep the digit characters; zfill(10). `char.isdigit()` is
modelled by `Char.isDigit` (the inputs in scope are ASCII). Python zfill
pads on the left with zeros up to the width and returns the string
unchanged when it is already at least that long; it never truncates. -/

def removeQuotes (s : String) : String := ⟨s.data.filter (fun c => c != '"')⟩

def digitsOnly (s : String) : String := ⟨s.data.filter Char.isDigit⟩

def zfill (width : Nat) (s : String) : String :=
  if width ≤ s.length then s
  else ⟨List.replicate (width - s.length) '0' ++ s.data⟩

def format_customer_id (s : String) : String := zfill 10 (digitsOnly (removeQuotes s))

theorem filter_digit_quotes (l : List Char) :
    (l.filter (fun c => c != '"')).filter Char.isDigit = l.filter Char.isDigit := by
  rw [List.filter_filter]
  congr 1
  funext c
  by_cases hc : c = '"'
  · subst hc; rfl
  · simp [hc]

theorem format_customer_id_shape (s : String) :
    (format_customer_id s).data =
      List.replicate (10 - (s.data.filter Char.isDigit).length) '0' ++
        s.data.filter Char.isDigit ∧
    (format_customer_id s).length = max 10 (s.data.filter Char.isDigit).length := by
  have hdig : (digitsOnly (removeQuotes s)).data = s.data.filter Char.isDigit := by
    simp only [digitsOnly, removeQuotes]
    exact filter_digit_quotes s.data
  have hlen : (digitsOnly (removeQuotes s)).length = (s.data.filter Char.isDigit).length := by
    simp only [String.length]
    rw [hdig]
  constructor
  · simp only [format_customer_id, zfill]
    split
    · rename_i h
      rw [hlen] at h
      rw [Nat.sub_eq_zero_of_le h]
      simpa using hdig
    · rename_i h
      rw [hlen] at h
      simp only [String.data]
      rw [hlen, hdig]
  · simp only [format_customer_id, zfill]
    split
    · rename_i h
      rw [hlen] at h
      rw [hlen]
      omega
    · rename_i h
      rw [hlen] at h
      simp only [String.length, List.length_append, List.length_replicate]
      rw [hdig]
      omega

/-- C1 (amended): format_customer_id returns exactly the digit characters of
the input (quotes, dashes and all other non-digits removed), left-padded
with zeros up to width 10; the overall length is the maximum of 10 and the
number of digit characters, so it exceeds 10 when the input carries more
than 10 digits (zfill pads but never truncates). -/
theorem format_customer_id_digits_padded (s : String) :
    (format_customer_id s).data =
      List.replicate (10 - (s.data.filter Char.isDigit).length) '0' ++
        s.data.filter Char.isDigit ∧
    (format_customer_id s).length = max 10 (s.data.filter Char.isDigit).length :=
  format_customer_id_shape s

/-- C1 (counterexample): on an input with eleven digit characters the result
keeps all eleven digits, so its length is 11, not the claimed exactly 10. -/
theorem format_customer_id_eleven_digits :
    format_customer_id "123-456-789-01" = "12345678901" ∧
    (format_customer_id "123-456-789-01").length = 11 := by
  constructor <;> rfl

/-! ## Result flattening (src/tools/gaql.py)

`extract_fields` walks the first result row depth first and returns the
dot-joined field paths (lines 113-130); `get_nested_value` resolves such a
path in a row, substituting the empty string for missing keys, non-mapping
intermediate values and None (lines 133-144); `run_gaql` turns the result
rows into dict/json/csv/table output (lines 33-110). -/

mutual
/-- The body of the inner `_extract` closure for one value: a nested dict
recurses with the extended path, a list or scalar leaf records the path. -/
def extractVal (pre : String) (v : JVal) : List String :=
  match v with
  | .obj kvs => extractKvs pre kvs
  | _ => [pre]

/-- The dict loop of `_extract`: iterate the entries in insertion order,
building `pre.key` (or just `key` at the top level). -/
def extractKvs (pre : String) (kvs : List (String × JVal)) : List String :=
  match kvs with
  | [] => []
  | (k, v) :: rest =>
      (extractVal (if pre = "" then k else pre ++ "." ++ k) v) ++ extractKvs pre rest
end

/-- `_extract_fields(row)` from gaql.py lines 113-130. -/
def extract_fields (row : Row) : List String := extractKvs "" row

/-- The key loop of `_get_nested_value`: start from the row dict, take
`.get(key, the empty string)` through dicts, bail out with the empty string
on a non-dict, and map a final None to the empty string. -/
def nestedGo : JVal → List String → JVal
  | v, [] => match v with
             | .null => .s ""
             | _ => v
  | v, k :: ks => match v with
                  | .obj kvs => nestedGo (dictGetD kvs k (.s "")) ks
                  | _ => .s ""

/-- Models Python `path.split(sep)` for a one-character separator, by
structural recursion so that concrete paths evaluate in the kernel. -/
def splitOnChar (sep : Char) : List Char → List (List Char)
  | [] => [[]]
  | c :: rest =>
      match splitOnChar sep rest with
      | [] => [[c]]
      | g :: gs => if c = sep then [] :: g :: gs else (c :: g) :: gs

/-- The key list `path.split(".")` of gaql.py line 135. -/
def pathKeys (path : String) : List String :=
  (splitOnChar '.' path.data).map (fun cs => ⟨cs⟩)

/-- `_get_nested_value(obj, path)` from gaql.py lines 133-144. -/
def get_nested_value (row : Row) (path : String) : JVal :=
  nestedGo (.obj row) (pathKeys path)

/-- Exact resolution of a dot path: `none` when a key is absent or a
non-mapping is entered before the path ends. Used to state when a path is
broken in a row (absent, None, or reached through a non-mapping). -/
def resolvePath : JVal → List String → Option JVal
  | v, [] => some v
  | .obj kvs, k :: ks =>
      (match lookupJ kvs k with
       | some v => resolvePath v ks
       | none => none)
  | _, _ :: _ => none

def pathBroken (row : Row) (path : String) : Bool :=
  match resolvePath (.obj row) (pathKeys path) with
  | none => true
  | some .null => true
  | some _ => false

def boolStr (b : Bool) : String := if b then "True" else "False"

/-- The ASCII single-quote character used by Python repr of strings. -/
def pySq : String := String.singleton (Char.ofNat 39)

def pyQuote (s : String) : String := pySq ++ s ++ pySq

mutual
/-- Models Python str() on the values a result row can hold. Container
values render with Python repr of the elements; string repr is modelled
without escape handling (no rendered fixture needs it) and float
formatting is not modelled (no rendered row contains a float). -/
def pyStr : JVal → String
  | .null => "None"
  | .b v => boolStr v
  | .s v => v
  | .i n => toString n
  | .rat _ => ""
  | .arr xs => "[" ++ pyReprItems xs ++ "]"
  | .obj kvs => "\x7b" ++ pyReprPairs kvs ++ "\x7d"

/-- Models Python repr() as used for elements inside containers. -/
def pyRepr : JVal → String
  | .null => "None"
  | .b v => boolStr v
  | .s v => pyQuote v
  | .i n => toString n
  | .rat _ => ""
  | .arr xs => "[" ++ pyReprItems xs ++ "]"
  | .obj kvs => "\x7b" ++ pyReprPairs kvs ++ "\x7d"

def pyReprItems : List JVal → String
  | [] => ""
  | [x] => pyRepr x
  | x :: y :: rest => pyRepr x ++ ", " ++ pyReprItems (y :: rest)

def pyReprPairs : List (String × JVal) → String
  | [] => ""
  | [(k, v)] => pyQuote k ++ ": " ++ pyRepr v
  | (k, v) :: p :: rest => pyQuote k ++ ": " ++ pyRepr v ++ ", " ++ pyReprPairs (p :: rest)
end

/-- gaql.py line 75: `str(value).replace(",", ";")` on a cell value. -/
def sanitizeComma (s : String) : String :=
  ⟨s.data.map (fun c => if c = ',' then ';' else c)⟩

/-- One csv data cell: stringify the resolved value and replace commas. -/
def csvCell (row : Row) (f : String) : String :=
  sanitizeComma (pyStr (get_nested_value row f))

/-- One csv data line: the cells of the given fields, comma-joined. -/
def csvLine (fields : List String) (row : Row) : String :=
  String.intercalate "," (fields.map (fun f => csvCell row f))

/-- The csv branch of run_gaql (lines 66-79): header from the first row,
then one line per row. -/
def csvRender : List Row → String
  | [] => ""
  | r0 :: rest =>
      String.intercalate "\n"
        (String.intercalate "," (extract_fields r0) ::
          (r0 :: rest).map (csvLine (extract_fields r0)))

def dashes (n : Nat) : String := ⟨List.replicate n '-'⟩

/-- Python format spec `f"{s:{w}}"` for a string: left justify, pad with
spaces up to the width. -/
def ljust (s : String) (w : Nat) : String := s ++ ⟨List.replicate (w - s.length) ' '⟩

/-- Column width for the table branch: the header width raised by every
rendered value of that field (lines 83-89). -/
def fieldWidth (results : List Row) (f : String) : Nat :=
  results.foldl (fun acc row => max acc (pyStr (get_nested_value row f)).length) f.length

/-- One table data line (lines 100-105). -/
def tableLine (results : List Row) (fields : List String) (row : Row) : String :=
  String.intercalate " | "
    (fields.map (fun f => ljust (pyStr (get_nested_value row f)) (fieldWidth results f)))

/-- The table branch of run_gaql (lines 81-107). -/
def tableRender (customerId : String) : List Row → String
  | [] => ""
  | r0 :: rest =>
      String.intercalate "\n"
        (["Query Results for Account " ++ format_customer_id customerId ++ ":",
          dashes 100,
          String.intercalate " | "
            ((extract_fields r0).map (fun f => ljust f (fieldWidth (r0 :: rest) f))),
          dashes (String.intercalate " | "
            ((extract_fields r0).map (fun f => ljust f (fieldWidth (r0 :: rest) f)))).length]
          ++ (r0 :: rest).map (tableLine (r0 :: rest) (extract_fields r0)))

inductive OutputFormat where
  | dict
  | json
  | csv
  | table

/-- run_gaql returns either a formatted string or the raw row list. -/
inductive Rendered where
  | text (s : String)
  | rows (rs : List Row)

/-- The formatting stage of `run_gaql` (gaql.py lines 51-110), after the
search call produced `results`. `dumps` is the external json.dumps
serializer, passed as an oracle; any format other than json/csv/table
falls through to returning the rows, which the dict constructor covers. -/
def run_gaql_format (dumps : List Row → String) (customerId : String)
    (results : List Row) (fmt : OutputFormat) : Rendered :=
  match results with
  | [] =>
      match fmt with
      | .json => .text "[]"
      | .csv => .text ""
      | .table => .text "No results found."
      | .dict => .rows []
  | r0 :: rest =>
      match fmt with
      | .json => .text (dumps (r0 :: rest))
      | .csv => .text (csvRender (r0 :: rest))
      | .table => .text (tableRender customerId (r0 :: rest))
      | .dict => .rows (r0 :: rest)

theorem nestedGo_empty_string (ks : List String) : nestedGo (.s "") ks = .s "" := by
  cases ks <;> rfl

theorem nestedGo_broken (ks : List String) (v : JVal)
    (h : resolvePath v ks = none ∨ resolvePath v ks = some .null) :
    nestedGo v ks = .s "" := by
  induction ks generalizing v with
  | nil =>
      rcases h with h | h
      · simp [resolvePath] at h
      · simp only [resolvePath, Option.some.injEq] at h
        subst h
        rfl
  | cons k ks ih =>
      cases v with
      | obj kvs =>
          simp only [resolvePath] at h
          simp only [nestedGo, dictGetD]
          cases hl : lookupJ kvs k with
          | none => simp [hl, nestedGo_empty_string]
          | some w =>
              rw [hl] at h
              simp only [hl, Option.getD_some]
              exact ih w h
      | null => rfl
      | b v => rfl
      | s v => rfl
      | i v => rfl
      | rat v => rfl
      | arr xs => rfl

/-- C3: for a non-empty row set, the csv and table outputs take their
columns exactly from the depth-first field walk of the first row
(`extract_fields r0`); every row is rendered over exactly those paths, so
a path present only in a later row never appears; and a path that is
absent in a row, resolves to None, or passes through a non-mapping renders
as the empty string there. -/
theorem run_gaql_first_row_schema (dumps : List Row → String) (cid : String)
    (r0 : Row) (rest : List Row) :
    run_gaql_format dumps cid (r0 :: rest) .csv =
      .text (String.intercalate "\n"
        (String.intercalate "," (extract_fields r0) ::
          (r0 :: rest).map (csvLine (extract_fields r0)))) ∧
    run_gaql_format dumps cid (r0 :: rest) .table =
      .text (String.intercalate "\n"
        (["Query Results for Account " ++ format_customer_id cid ++ ":",
          dashes 100,
          String.intercalate " | "
            ((extract_fields r0).map (fun f => ljust f (fieldWidth (r0 :: rest) f))),
          dashes (String.intercalate " | "
            ((extract_fields r0).map (fun f => ljust f (fieldWidth (r0 :: rest) f)))).length]
          ++ (r0 :: rest).map (tableLine (r0 :: rest) (extract_fields r0)))) ∧
    (∀ (row : Row) (p : String), pathBroken row p = true →
       csvCell row p = "" ∧ pyStr (get_nested_value row p) = "") := by
  refine ⟨rfl, rfl, ?_⟩
  intro row p h
  have hempty : get_nested_value row p = .s "" := by
    apply nestedGo_broken
    unfold pathBroken at h
    cases hr : resolvePath (.obj row) (pathKeys p) with
    | none => exact Or.inl rfl
    | some v =>
        rw [hr] at h
        cases v <;> simp_all
  rw [get_nested_value] at hempty
  constructor
  · simp [csvCell, get_nested_value, hempty, pyStr, sanitizeComma]
  · simp [get_nested_value, hempty, pyStr]

/-- C3 (witness): evaluating the schema theorem at a concrete one-row
result and a path absent from that row. -/
theorem run_gaql_first_row_schema_witness :
    csvCell [("b", JVal.s "x")] "a" = "" ∧
    pyStr (get_nested_value [("b", JVal.s "x")] "a") = "" :=
  (run_gaql_first_row_schema (fun _ => "") "1" [] []).2.2 [("b", JVal.s "x")] "a" rfl

/-- C4: no csv data cell contains a raw comma character; the comma
replacement runs on the stringified value before the cells are joined. -/
theorem csv_cells_comma_free (row : Row) (f : String) :
    (csvCell row f).data.all (fun c => c != ',') = true := by
  simp only [csvCell, sanitizeComma, List.all_eq_true, List.mem_map]
  rintro c ⟨a, _, rfl⟩
  by_cases ha : a = ',' <;> simp [ha]

/-- C5: the empty row set renders as the string of an empty json list for
json, the empty string for csv, and the literal no-results message for
table. -/
theorem run_gaql_empty_rows (dumps : List Row → String) (cid : String) :
    run_gaql_format dumps cid [] .json = .text "[]" ∧
    run_gaql_format dumps cid [] .csv = .text "" ∧
    run_gaql_format dumps cid [] .table = .text "No results found." :=
  ⟨rfl, rfl, rfl⟩

/-! ## Credential lifecycle (src/api_client.py lines 38-185 and
src/tools/client.py lines 29-156)

The OAuth library, the filesystem and the interactive browser flow are
modelled by a `World` oracle record; one call to a resolution function is
one pass over the Python code with that world fixed. A google-auth user
credential is reduced to the four attributes the code reads; a service
account credential to the scope list and optional impersonated subject.
`Effects` counts the externally visible credential side effects of a call:
token refresh exchanges, interactive authorization flows, attempts to
write the token file, and loads of an authorized-user token from the
credentials file. Each Python exception becomes an `AuthError` value. -/

structure OAuthCreds where
  token : String
  valid : Bool
  expired : Bool
  hasRefreshToken : Bool

structure SACreds where
  scopes : List String
  subject : Option String

inductive Credential where
  | oauth (c : OAuthCreds)
  | serviceAccount (sa : SACreds)

/-- What the credentials file at `credentials_path` holds: missing, json
that fails to parse (or parses but fails credential construction), or a
parsed json object described by the fields the code inspects: whether its
`type` field equals `"service_account"`, whether it has an `installed` or
a `web` key, and the authorized-user token it yields (none when
`Credentials.from_authorized_user_info` would raise). -/
inductive CredFile where
  | absent
  | invalid
  | jsonData (typeIsServiceAccount : Bool) (hasInstalled : Bool) (hasWeb : Bool)
      (tok : Option OAuthCreds)

/-- The world outside the client: the credentials file, the outcomes of
the refresh exchange, the interactive flow and the token-file write, and
the environment variables the code reads. -/
structure World where
  file : CredFile
  refreshOk : Bool
  refreshedToken : String
  flowResult : Option OAuthCreds
  saveOk : Bool
  clientId : Option String
  clientSecret : Option String
  impersonationEmail : Option String
  saToken : String

/-- Counts of credential side effects of one resolution call. -/
structure Effects where
  refreshes : Nat
  flows : Nat
  saveAttempts : Nat
  tokenLoads : Nat

def noEffects : Effects := ⟨0, 0, 0, 0⟩

inductive AuthError where
  | noCredentialsPath
  | saKeyNotFound
  | missingClientConfig
  | flowFailed
  | refreshFailed
  | fileLoadError
  | saveFailed
  | oauthInvalid
  | missingDeveloperToken

/-- Python truthiness of an optional string attribute: present and
non-empty. -/
def truthy : Option String → Bool
  | none => false
  | some s => s != ""

/-- Models Python str.lower() for the ASCII strings in scope, defined by
a character map so that concrete strings evaluate in the kernel. -/
def lowerStr (s : String) : String := ⟨s.data.map Char.toLower⟩

/-- The credential after a successful `creds.refresh(Request())`: a fresh
valid unexpired token, the refresh token kept. -/
def refreshedCred (c : OAuthCreds) (w : World) : OAuthCreds :=
  { token := w.refreshedToken, valid := true, expired := false,
    hasRefreshToken := c.hasRefreshToken }

/-- Constructor-time configuration of api_client.GoogleAdsClient, after
the environment-variable fallbacks of lines 48-51 are applied. -/
structure ApiClientCfg where
  credentialsPath : Option String
  developerToken : Option String
  loginCustomerId : String
  authType : String

/-- The token-file load of api_client._get_oauth_credentials lines
108-118: the whole read is inside try/except, so every failure just
leaves creds unset. Returns (loaded creds, client config loaded, token
load attempts). -/
def apiLoadTokenFile (w : World) : Option OAuthCreds × Bool × Nat :=
  match w.file with
  | .absent => (none, false, 0)
  | .invalid => (none, false, 0)
  | .jsonData _ hasInstalled hasWeb tok =>
      if hasInstalled || hasWeb then (none, true, 0)
      else
        match tok with
        | some c => (some c, false, 1)
        | none => (none, false, 1)

/-- Lines 120-146 of api_client: refresh an expired credential that has a
refresh token (RefreshError caught: failure just discards it), then fall
back to the interactive flow, which needs a client config either from the
file or from GOOGLE_ADS_CLIENT_ID/SECRET. Returns the credential plus
refresh and flow counts. -/
def apiRenew (w : World) (creds0 : Option OAuthCreds) (hasClientConfig : Bool) :
    Except AuthError (OAuthCreds × Nat × Nat) :=
  let step1 : Option OAuthCreds × Nat :=
    match creds0 with
    | some c =>
        if c.expired && c.hasRefreshToken then
          if w.refreshOk then (some (refreshedCred c w), 1) else (none, 1)
        else (some c, 0)
    | none => (none, 0)
  match step1 with
  | (some c, r) => .ok (c, r, 0)
  | (none, r) =>
      if hasClientConfig || (truthy w.clientId && truthy w.clientSecret) then
        match w.flowResult with
        | some fc => .ok (fc, r, 1)
        | none => .error .flowFailed
      else .error .missingClientConfig

/-- `_get_oauth_credentials` of api_client.py lines 102-155. When the
loaded credential is not both present and valid, the renewal block runs
and then the token file write is attempted; a write failure is caught and
only logged (lines 148-153), so the call still returns the credential and
the attempt is only visible in the effect count. -/
def apiGetOauthCredentials (w : World) : Except AuthError (OAuthCreds × Effects) :=
  match apiLoadTokenFile w with
  | (creds0, hasClientConfig, loads) =>
      match creds0 with
      | some c =>
          if c.valid then .ok (c, ⟨0, 0, 0, loads⟩)
          else
            match apiRenew w (some c) hasClientConfig with
            | .error e => .error e
            | .ok (c2, r, f) => .ok (c2, ⟨r, f, 1, loads⟩)
      | none =>
          match apiRenew w none hasClientConfig with
          | .error e => .error e
          | .ok (c2, r, f) => .ok (c2, ⟨r, f, 1, loads⟩)

def SCOPES : List String := ["https://www.googleapis.com/auth/adwords"]

/-- `_get_service_account_credentials` of api_client.py lines 83-100:
requires the key file to exist, builds a credential scoped to SCOPES from
it (construction fails unless the file is a service-account key), and
binds the impersonated subject when GOOGLE_ADS_IMPERSONATION_EMAIL is
set. No token is loaded from or saved to the token store. -/
def apiGetServiceAccountCredentials (w : World) : Except AuthError (Credential × Effects) :=
  match w.file with
  | .absent => .error .saKeyNotFound
  | .invalid => .error .fileLoadError
  | .jsonData typeIsSA _ _ _ =>
      if typeIsSA then
        let sa : SACreds := { scopes := SCOPES, subject := none }
        let sa := if truthy w.impersonationEmail then
                    { sa with subject := w.impersonationEmail }
                  else sa
        .ok (.serviceAccount sa, noEffects)
      else .error .fileLoadError

/-- `_get_credentials` of api_client.py lines 61-81: require a
credentials path; take the service-account path when the auth type says
so or when the file parses as json whose type field is
`"service_account"` (a read failure during auto-detection is swallowed);
otherwise take the OAuth path. -/
def apiGetCredentials (cfg : ApiClientCfg) (w : World) :
    Except AuthError (Credential × Effects) :=
  if !truthy cfg.credentialsPath then .error .noCredentialsPath
  else if lowerStr cfg.authType = "service_account" then
    apiGetServiceAccountCredentials w
  else
    match w.file with
    | .jsonData true hasI hasW tok =>
        let _ := (hasI, hasW, tok)
        apiGetServiceAccountCredentials w
    | _ =>
        match apiGetOauthCredentials w with
        | .ok (c, e) => .ok (.oauth c, e)
        | .error e => .error e

/-- The memoizing `credentials` property of api_client.py lines 54-59:
resolve once, then always return the cached value. The cached slot is
threaded explicitly; the result carries the new slot. -/
def apiCredentialsProp (cfg : ApiClientCfg) (w : World) :
    Option Credential → Except AuthError (Credential × Option Credential × Effects)
  | some c => .ok (c, some c, noEffects)
  | none =>
      match apiGetCredentials cfg w with
      | .ok (c, e) => .ok (c, some c, e)
      | .error e => .error e

/-- Constructor-time configuration of tools.client.GoogleAdsClient, after
the environment-variable fallbacks of lines 50-54 are applied. -/
structure ToolsClientCfg where
  credentialsPath : Option String
  developerToken : Option String
  loginCustomerId : String
  clientId : Option String
  clientSecret : Option String

/-- The token-file load of tools/client.py lines 101-107. Unlike the
api_client version it is not wrapped in try/except, so an unreadable file
or a failing credential construction raises; and only the `installed` key
marks a client config. -/
def toolsLoadFile (w : World) : Except AuthError (Option OAuthCreds × Bool × Nat) :=
  match w.file with
  | .absent => .ok (none, false, 0)
  | .invalid => .error .fileLoadError
  | .jsonData _ hasInstalled _ tok =>
      if hasInstalled then .ok (none, true, 0)
      else
        match tok with
        | some c => .ok (some c, false, 1)
        | none => .error .fileLoadError

/-- The flow arm of tools/client.py lines 113-132: need a client config
from the file or from the configured client id and secret, then run the
interactive local-server flow. -/
def toolsFlow (cfg : ToolsClientCfg) (w : World) (hasClientConfig : Bool) :
    Except AuthError (OAuthCreds × Nat × Nat) :=
  if hasClientConfig || (truthy cfg.clientId && truthy cfg.clientSecret) then
    match w.flowResult with
    | some fc => .ok (fc, 0, 1)
    | none => .error .flowFailed
  else .error .missingClientConfig

/-- Lines 110-132 of tools/client.py: an expired credential that has a
refresh token is refreshed (the refresh is not guarded, so a refresh
failure raises); every other not-valid case goes to the interactive
flow. -/
def toolsRenew (cfg : ToolsClientCfg) (w : World) (creds0 : Option OAuthCreds)
    (hasClientConfig : Bool) : Except AuthError (OAuthCreds × Nat × Nat) :=
  match creds0 with
  | some c =>
      if c.expired && c.hasRefreshToken then
        if w.refreshOk then .ok (refreshedCred c w, 1, 0) else .error .refreshFailed
      else toolsFlow cfg w hasClientConfig
  | none => toolsFlow cfg w hasClientConfig

/-- The non-cached part of tools/client.py `_get_credentials` (lines
94-139): require a path, load the file, and when the loaded credential is
missing or not valid run renewal followed by the token-file write - which
is NOT guarded here (lines 134-136), so a write failure raises. -/
def toolsAcquire (cfg : ToolsClientCfg) (w : World) :
    Except AuthError (OAuthCreds × Effects) :=
  if !truthy cfg.credentialsPath then .error .noCredentialsPath
  else
    match toolsLoadFile w with
    | .error e => .error e
    | .ok (creds0, hasClientConfig, loads) =>
        match creds0 with
        | some c =>
            if c.valid then .ok (c, ⟨0, 0, 0, loads⟩)
            else
              match toolsRenew cfg w (some c) hasClientConfig with
              | .error e => .error e
              | .ok (c2, r, f) =>
                  if w.saveOk then .ok (c2, ⟨r, f, 1, loads⟩)
                  else .error .saveFailed
        | none =>
            match toolsRenew cfg w none hasClientConfig with
            | .error e => .error e
            | .ok (c2, r, f) =>
                if w.saveOk then .ok (c2, ⟨r, f, 1, loads⟩)
                else .error .saveFailed

/-- `_get_credentials` of tools/client.py lines 89-139: a cached valid
credential is returned as is (lines 91-92); otherwise the acquisition
runs and its result is stored in the cache slot (line 138). -/
def toolsGetCredentials (cfg : ToolsClientCfg) (w : World) :
    Option OAuthCreds → Except AuthError (OAuthCreds × Option OAuthCreds × Effects)
  | some c0 =>
      if c0.valid then .ok (c0, some c0, noEffects)
      else
        match toolsAcquire cfg w with
        | .ok (c, e) => .ok (c, some c, e)
        | .error e => .error e
  | none =>
      match toolsAcquire cfg w with
      | .ok (c, e) => .ok (c, some c, e)
      | .error e => .error e

/-- C6: credential resolution is memoized per client instance in both
implementations. If the first resolve call succeeds, a second call in an
unchanged world returns the very same credential (hence the same access
token) out of the cache with zero refreshes, flows, token loads and save
attempts; the tools client rechecks validity, so its statement assumes
the cached credential is valid (not expired). -/
theorem resolve_idempotent_memoized :
    (∀ (cfg : ApiClientCfg) (w : World) (c : Credential) (st : Option Credential)
       (eff : Effects),
       apiCredentialsProp cfg w none = .ok (c, st, eff) →
       apiCredentialsProp cfg w st = .ok (c, st, noEffects)) ∧
    (∀ (cfg : ToolsClientCfg) (w : World) (c : OAuthCreds) (st : Option OAuthCreds)
       (eff : Effects),
       toolsGetCredentials cfg w none = .ok (c, st, eff) → c.valid = true →
       toolsGetCredentials cfg w st = .ok (c, st, noEffects)) := by
  constructor
  · intro cfg w c st eff h
    unfold apiCredentialsProp at h
    cases hx : apiGetCredentials cfg w with
    | ok p =>
        rw [hx] at h
        cases h
        rfl
    | error e =>
        rw [hx] at h
        cases h
  · intro cfg w c st eff h hv
    unfold toolsGetCredentials at h
    cases hx : toolsAcquire cfg w with
    | ok p =>
        rw [hx] at h
        cases h
        simp [toolsGetCredentials, hv]
    | error e =>
        rw [hx] at h
        cases h

def sampleOauthCred : OAuthCreds :=
  { token := "tokA", valid := true, expired := false, hasRefreshToken := true }

def memoWorld : World :=
  { file := .jsonData false false false (some sampleOauthCred), refreshOk := true,
    refreshedToken := "tokR", flowResult := none, saveOk := true, clientId := none,
    clientSecret := none, impersonationEmail := none, saToken := "tokSA" }

def apiMemoCfg : ApiClientCfg :=
  { credentialsPath := some "creds.json", developerToken := some "devtok",
    loginCustomerId := "", authType := "oauth" }

def toolsMemoCfg : ToolsClientCfg :=
  { credentialsPath := some "creds.json", developerToken := some "devtok",
    loginCustomerId := "", clientId := none, clientSecret := none }

/-- C6 (witness): a world whose token file holds a valid credential; the
first resolve of each client loads it, the second returns the cached
value with no side effects. -/
theorem resolve_idempotent_memoized_witness :
    apiCredentialsProp apiMemoCfg memoWorld (some (.oauth sampleOauthCred)) =
      .ok (.oauth sampleOauthCred, some (.oauth sampleOauthCred), noEffects) ∧
    toolsGetCredentials toolsMemoCfg memoWorld (some sampleOauthCred) =
      .ok (sampleOauthCred, some sampleOauthCred, noEffects) :=
  ⟨resolve_idempotent_memoized.1 apiMemoCfg memoWorld (.oauth sampleOauthCred)
     (some (.oauth sampleOauthCred)) ⟨0, 0, 0, 1⟩ rfl,
   resolve_idempotent_memoized.2 toolsMemoCfg memoWorld sampleOauthCred
     (some sampleOauthCred) ⟨0, 0, 0, 1⟩ rfl rfl⟩

/-- C7: when the credentials file parses as json whose type field is
`"service_account"`, api_client._get_credentials routes to the
service-account path even with the default auth type "oauth": the result
is a service-account credential scoped to the single entry of SCOPES,
with zero token loads and zero token-file writes (the path never touches
local token storage). -/
theorem service_account_autodetect (cfg : ApiClientCfg) (w : World)
    (hasI hasW : Bool) (tok : Option OAuthCreds)
    (hpath : truthy cfg.credentialsPath = true)
    (hauth : cfg.authType = "oauth")
    (hfile : w.file = .jsonData true hasI hasW tok) :
    apiGetCredentials cfg w =
      .ok (.serviceAccount
            { scopes := SCOPES,
              subject := if truthy w.impersonationEmail then w.impersonationEmail
                         else none },
          noEffects) ∧
    SCOPES.length = 1 := by
  constructor
  · unfold apiGetCredentials
    rw [hpath, hauth, hfile]
    rw [if_neg (by simp)]
    rw [if_neg (by decide : ¬(lowerStr "oauth" = "service_account"))]
    show apiGetServiceAccountCredentials w = _
    unfold apiGetServiceAccountCredentials
    rw [hfile]
    cases htr : truthy w.impersonationEmail <;> simp [htr]
  · rfl

def saCfg : ApiClientCfg :=
  { credentialsPath := some "sa-key.json", developerToken := some "devtok",
    loginCustomerId := "", authType := "oauth" }

def saWorld : World :=
  { file := .jsonData true false false none, refreshOk := true,
    refreshedToken := "tokR", flowResult := none, saveOk := true, clientId := none,
    clientSecret := none, impersonationEmail := none, saToken := "tokSA" }

/-- C7 (witness): a concrete service-account key file auto-detected under
the default oauth auth type. -/
theorem service_account_autodetect_witness :
    apiGetCredentials saCfg saWorld =
      .ok (.serviceAccount { scopes := SCOPES, subject := none }, noEffects) ∧
    SCOPES.length = 1 := by
  have h := service_account_autodetect saCfg saWorld false false none rfl rfl rfl
  simpa using h

/-- C9 (amended): on a newly refreshed token with a failing token-file
write, api_client's resolver attempts the save (one save attempt in the
effects), swallows the failure, and still returns the fresh credential;
the tools client resolver reaches its unguarded save on the same scenario
and the write failure propagates as an error instead. -/
theorem token_persist_failure_handling :
    (∀ (w : World) (c0 : OAuthCreds),
       w.file = .jsonData false false false (some c0) →
       c0.valid = false → c0.expired = true → c0.hasRefreshToken = true →
       w.refreshOk = true → w.saveOk = false →
       apiGetOauthCredentials w = .ok (refreshedCred c0 w, ⟨1, 0, 1, 1⟩)) ∧
    (∀ (cfg : ToolsClientCfg) (w : World) (c0 : OAuthCreds),
       truthy cfg.credentialsPath = true →
       w.file = .jsonData false false false (some c0) →
       c0.valid = false → c0.expired = true → c0.hasRefreshToken = true →
       w.refreshOk = true → w.saveOk = false →
       toolsGetCredentials cfg w none = .error .saveFailed) := by
  constructor
  · intro w c0 hfile hv he hr hrok _
    unfold apiGetOauthCredentials apiLoadTokenFile apiRenew
    rw [hfile]
    simp [hv, he, hr, hrok]
  · intro cfg w c0 hpath hfile hv he hr hrok hsave
    unfold toolsGetCredentials toolsAcquire toolsLoadFile toolsRenew
    rw [hpath, hfile]
    simp [hv, he, hr, hrok, hsave]

def expiredCred : OAuthCreds :=
  { token := "old", valid := false, expired := true, hasRefreshToken := true }

def failSaveWorld : World :=
  { file := .jsonData false false false (some expiredCred), refreshOk := true,
    refreshedToken := "fresh", flowResult := none, saveOk := false, clientId := none,
    clientSecret := none, impersonationEmail := none, saToken := "tokSA" }

/-- C9 (witness): concrete expired-but-refreshable token file and failing
save; the api_client resolver returns the refreshed credential after one
refresh, one save attempt and one token load. -/
theorem token_persist_failure_handling_witness :
    apiGetOauthCredentials failSaveWorld =
      .ok (refreshedCred expiredCred failSaveWorld, ⟨1, 0, 1, 1⟩) :=
  token_persist_failure_handling.1 failSaveWorld expiredCred rfl rfl rfl rfl rfl rfl

/-- C9 (counterexample): the same scenario on the tools client resolver:
the claim says a persistence failure is swallowed and the fresh
credential is returned, but the call instead fails with the write
error. -/
theorem tools_save_failure_propagates :
    toolsGetCredentials toolsMemoCfg failSaveWorld none = .error .saveFailed := rfl

/-! ## Request signing (src/api_client.py lines 157-185 and
src/tools/client.py lines 141-156) -/

/-- The header dict both `_get_headers` implementations build (api_client
lines 176-184, tools/client lines 147-155), in insertion order. -/
def headerList (token devTok loginCustomerId : String) : List (String × String) :=
  [("Authorization", "Bearer " ++ token),
   ("developer-token", devTok),
   ("content-type", "application/json")] ++
  (if loginCustomerId != "" then
     [("login-customer-id", format_customer_id loginCustomerId)]
   else [])

/-- `_get_headers` of api_client.py lines 157-185: require a developer
token; a service-account credential is refreshed on every call and its
fresh token used; an oauth credential is used as is when valid, refreshed
when expired with a refresh token (unguarded), and otherwise rejected. -/
def apiGetHeaders (cfg : ApiClientCfg) (w : World) (creds : Credential) :
    Except AuthError (List (String × String)) :=
  if !truthy cfg.developerToken then .error .missingDeveloperToken
  else
    match creds with
    | .serviceAccount _ =>
        .ok (headerList w.saToken (cfg.developerToken.getD "") cfg.loginCustomerId)
    | .oauth c =>
        if c.valid then
          .ok (headerList c.token (cfg.developerToken.getD "") cfg.loginCustomerId)
        else if c.expired && c.hasRefreshToken then
          if w.refreshOk then
            .ok (headerList w.refreshedToken (cfg.developerToken.getD "")
                  cfg.loginCustomerId)
          else .error .refreshFailed
        else .error .oauthInvalid

/-- `_get_headers` of tools/client.py lines 141-156: require a developer
token, resolve credentials through the cached `_get_credentials`, and
build the same header dict from the resulting token. -/
def toolsGetHeaders (cfg : ToolsClientCfg) (w : World) (cached : Option OAuthCreds) :
    Except AuthError (List (String × String) × Option OAuthCreds × Effects) :=
  if !truthy cfg.developerToken then .error .missingDeveloperToken
  else
    match toolsGetCredentials cfg w cached with
    | .error e => .error e
    | .ok (c, st, eff) =>
        .ok (headerList c.token (cfg.developerToken.getD "") cfg.loginCustomerId,
             st, eff)

/-- C8 (amended): with a developer token configured and a valid resolved
credential, both header builders return exactly Authorization (Bearer
token), developer-token, and content-type, plus a login-customer-id entry
built by format_customer_id if and only if a login customer id is
configured; without a developer token both fail with the missing
developer token error. The login entry has exactly 10 digits whenever the
configured id holds at most 10 digit characters, and is longer otherwise
(zfill never truncates). -/
theorem headers_exact_shape :
    (∀ (cfg : ApiClientCfg) (w : World) (creds : Credential),
       truthy cfg.developerToken = false →
       apiGetHeaders cfg w creds = .error .missingDeveloperToken) ∧
    (∀ (cfg : ApiClientCfg) (w : World) (c : OAuthCreds),
       truthy cfg.developerToken = true → c.valid = true →
       apiGetHeaders cfg w (.oauth c) =
         .ok ([("Authorization", "Bearer " ++ c.token),
               ("developer-token", cfg.developerToken.getD ""),
               ("content-type", "application/json")] ++
              (if cfg.loginCustomerId != "" then
                 [("login-customer-id", format_customer_id cfg.loginCustomerId)]
               else []))) ∧
    (∀ (cfg : ApiClientCfg) (w : World) (sa : SACreds),
       truthy cfg.developerToken = true →
       apiGetHeaders cfg w (.serviceAccount sa) =
         .ok ([("Authorization", "Bearer " ++ w.saToken),
               ("developer-token", cfg.developerToken.getD ""),
               ("content-type", "application/json")] ++
              (if cfg.loginCustomerId != "" then
                 [("login-customer-id", format_customer_id cfg.loginCustomerId)]
               else []))) ∧
    (∀ (cfg : ToolsClientCfg) (w : World) (cached : Option OAuthCreds),
       truthy cfg.developerToken = false →
       toolsGetHeaders cfg w cached = .error .missingDeveloperToken) ∧
    (∀ (cfg : ToolsClientCfg) (w : World) (c : OAuthCreds),
       truthy cfg.developerToken = true → c.valid = true →
       toolsGetHeaders cfg w (some c) =
         .ok ([("Authorization", "Bearer " ++ c.token),
               ("developer-token", cfg.developerToken.getD ""),
               ("content-type", "application/json")] ++
              (if cfg.loginCustomerId != "" then
                 [("login-customer-id", format_customer_id cfg.loginCustomerId)]
               else []),
              some c, noEffects)) ∧
    (∀ s : String,
       10 ≤ (format_customer_id s).length ∧
       ((s.data.filter Char.isDigit).length ≤ 10 →
          (format_customer_id s).length = 10)) := by
  refine ⟨?_, ?_, ?_, ?_, ?_, ?_⟩
  · intro cfg w creds h
    unfold apiGetHeaders
    rw [h]
    rfl
  · intro cfg w c h hv
    unfold apiGetHeaders
    rw [h]
    simp [hv, headerList]
  · intro cfg w sa h
    unfold apiGetHeaders
    rw [h]
    rfl
  · intro cfg w cached h
    unfold toolsGetHeaders
    rw [h]
    rfl
  · intro cfg w c h hv
    unfold toolsGetHeaders toolsGetCredentials
    rw [h]
    simp [hv, headerList]
  · intro s
    have hlen := (format_customer_id_shape s).2
    constructor
    · omega
    · intro hd
      omega

/-- C8 (witness): the headers of a client with developer token "devtok",
login customer id "42", and a valid oauth credential. -/
theorem headers_exact_shape_witness :
    apiGetHeaders { credentialsPath := some "creds.json",
                    developerToken := some "devtok", loginCustomerId := "42",
                    authType := "oauth" } memoWorld (.oauth sampleOauthCred) =
      .ok [("Authorization", "Bearer tokA"), ("developer-token", "devtok"),
           ("content-type", "application/json"),
           ("login-customer-id", "0000000042")] := by
  have h := headers_exact_shape.2.1
    { credentialsPath := some "creds.json", developerToken := some "devtok",
      loginCustomerId := "42", authType := "oauth" } memoWorld sampleOauthCred rfl rfl
  simpa using h

/-- C8 (counterexample): a login customer id carrying eleven digits is
emitted as an eleven-character login-customer-id header value, not
exactly 10 digits as claimed. -/
theorem headers_login_id_eleven_digits :
    apiGetHeaders { credentialsPath := some "creds.json",
                    developerToken := some "devtok",
                    loginCustomerId := "123-456-789-01", authType := "oauth" }
        memoWorld (.oauth sampleOauthCred) =
      .ok [("Authorization", "Bearer tokA"), ("developer-token", "devtok"),
           ("content-type", "application/json"),
           ("login-customer-id", "12345678901")] ∧
    (format_customer_id "123-456-789-01").length = 11 := ⟨rfl, rfl⟩

/-! ## Query executors (src/tools/client.py lines 158-204 and
src/api_client.py lines 187-207)

The HTTP transport is an oracle from the request to a response. Header
construction is the credential model above; the executors here cover the
request building and the status handling, which is what the error
contract is about. -/

structure HttpResponse where
  statusCode : Nat
  text : String
  jsonBody : JVal

def toolsBaseUrl : String := "https://googleads.googleapis.com/v19"

/-- `GoogleAdsClient.search` of tools/client.py lines 170-186: POST the
query to the normalized customer path; any status other than 200 raises
an exception whose message is "API Error: " plus the response body
text; a 200 response is returned as parsed json. -/
def toolsSearch (customerId query : String) (http : String → JVal → HttpResponse) :
    Except String JVal :=
  let url := toolsBaseUrl ++ "/customers/" ++ format_customer_id customerId ++
    "/googleAds:search"
  let response := http url (JVal.obj [("query", JVal.s query)])
  if response.statusCode ≠ 200 then .error ("API Error: " ++ response.text)
  else .ok response.jsonBody

/-- `GoogleAdsClient.mutate` of tools/client.py lines 188-204. -/
def toolsMutate (customerId : String) (operations : List JVal)
    (http : String → JVal → HttpResponse) : Except String JVal :=
  let url := toolsBaseUrl ++ "/customers/" ++ format_customer_id customerId ++
    "/googleAds:mutate"
  let response := http url (JVal.obj [("mutateOperations", JVal.arr operations)])
  if response.statusCode ≠ 200 then .error ("API Error: " ++ response.text)
  else .ok response.jsonBody

/-- `GoogleAdsClient.get` of tools/client.py lines 158-168. -/
def toolsGet (endpoint : String) (http : String → HttpResponse) :
    Except String JVal :=
  let response := http (toolsBaseUrl ++ "/" ++ endpoint)
  if response.statusCode ≠ 200 then .error ("API Error: " ++ response.text)
  else .ok response.jsonBody

/-- `GoogleAdsClient.query` of api_client.py lines 187-197 (its error
message spells "API error: " with a lowercase e). -/
def apiQuery (customerId query : String) (http : String → JVal → HttpResponse) :
    Except String JVal :=
  let url := "https://googleads.googleapis.com/v19/customers/" ++
    format_customer_id customerId ++ "/googleAds:search"
  let response := http url (JVal.obj [("query", JVal.s query)])
  if response.statusCode ≠ 200 then .error ("API error: " ++ response.text)
  else .ok response.jsonBody

/-- C2 (amended): every executor call raises an error carrying the
response body text (and only the body text, not the status code) exactly
when the response status is not 200 - so 2xx statuses other than 200 also
raise - and returns the parsed json body for a 200 response. -/
theorem executor_status_handling (resp : HttpResponse) (cid q ep : String)
    (ops : List JVal) :
    (toolsSearch cid q (fun _ _ => resp) = .error ("API Error: " ++ resp.text) ↔
       resp.statusCode ≠ 200) ∧
    (resp.statusCode = 200 → toolsSearch cid q (fun _ _ => resp) = .ok resp.jsonBody) ∧
    (toolsMutate cid ops (fun _ _ => resp) = .error ("API Error: " ++ resp.text) ↔
       resp.statusCode ≠ 200) ∧
    (resp.statusCode = 200 → toolsMutate cid ops (fun _ _ => resp) = .ok resp.jsonBody) ∧
    (toolsGet ep (fun _ => resp) = .error ("API Error: " ++ resp.text) ↔
       resp.statusCode ≠ 200) ∧
    (resp.statusCode = 200 → toolsGet ep (fun _ => resp) = .ok resp.jsonBody) ∧
    (apiQuery cid q (fun _ _ => resp) = .error ("API error: " ++ resp.text) ↔
       resp.statusCode ≠ 200) ∧
    (resp.statusCode = 200 → apiQuery cid q (fun _ _ => resp) = .ok resp.jsonBody) := by
  unfold toolsSearch toolsMutate toolsGet apiQuery
  by_cases h : resp.statusCode = 200 <;> simp [h]

/-- C2 (witness): a 200 response is returned as its parsed body by each
executor. -/
theorem executor_status_handling_witness :
    toolsSearch "1" "q" (fun _ _ => ⟨200, "ok", JVal.arr []⟩) = .ok (JVal.arr []) ∧
    apiQuery "1" "q" (fun _ _ => ⟨200, "ok", JVal.arr []⟩) = .ok (JVal.arr []) :=
  ⟨(executor_status_handling ⟨200, "ok", JVal.arr []⟩ "1" "q" "ep" []).2.1 rfl,
   (executor_status_handling ⟨200, "ok", JVal.arr []⟩ "1" "q" "ep" []).2.2.2.2.2.2.2 rfl⟩

/-- C2 (counterexample): a mocked 201 response is in the 2xx range, yet
the search call raises; and the raised error for a mocked 403 is exactly
the prefixed body text, which carries no status code. -/
theorem executor_non200_2xx_raises :
    toolsSearch "123" "SELECT" (fun _ _ => ⟨201, "created", JVal.null⟩) =
      .error "API Error: created" ∧
    apiQuery "123" "SELECT" (fun _ _ => ⟨403, "forbidden", JVal.null⟩) =
      .error "API error: forbidden" := ⟨rfl, rfl⟩

/-! ## Mock mode and reporting (src/tools/client.py lines 60-83 and
src/tools/reporting.py, fixtures from src/tools/mock_data.py) -/

/-- Bool substring test on character lists (Python `needle in hay`). -/
def listStartsWith : List Char → List Char → Bool
  | [], _ => true
  | _ :: _, [] => false
  | a :: as, b :: bs => a == b && listStartsWith as bs

def listHasSub (needle : List Char) : List Char → Bool
  | [] => listStartsWith needle []
  | c :: rest => listStartsWith needle (c :: rest) || listHasSub needle rest

def hasSub (needle hay : String) : Bool := listHasSub needle.data hay.data

def mock_patterns : List String := ["mock", "test", "demo", "fake", "placeholder"]

/-- `any(p in s_lower for p in mock_patterns)` with the lowercasing of
tools/client.py lines 66 and 72 applied. -/
def containsMockPattern (s : String) : Bool :=
  mock_patterns.any (fun p => hasSub p (lowerStr s))

/-- `_detect_mock_mode` of tools/client.py lines 60-83: a mock pattern in
the developer token, a mock pattern in the credentials path, a configured
path naming a missing file, or no credentials configured at all. -/
def detect_mock_mode (developerToken credentialsPath : Option String)
    (pathExists : Bool) : Bool :=
  if truthy developerToken && containsMockPattern (developerToken.getD "") then true
  else if truthy credentialsPath && containsMockPattern (credentialsPath.getD "") then
    true
  else if truthy credentialsPath && !pathExists then true
  else if !truthy developerToken && !truthy credentialsPath then true
  else false

/-- Python int() on the value shapes the metric dicts hold: nonnegative
decimal integer strings and ints (the `.get(k, 0)` default). -/
def parseNatDigits (cs : List Char) : Nat :=
  cs.foldl (fun n c => n * 10 + (c.toNat - 48)) 0

def pyIntOf : JVal → Int
  | .s t => (parseNatDigits t.data : Int)
  | .i n => n
  | .b v => if v then 1 else 0
  | _ => 0

/-- Python float() on nonnegative decimal strings such as "0.084", as an
exact rational; ints pass through. -/
def parseDecStr (s : String) : ℚ :=
  match (splitOnChar '.' s.data).map (fun cs => parseNatDigits cs) with
  | [ip] => (ip : ℚ)
  | [ip, fp] =>
      (ip : ℚ) + (fp : ℚ) / ((10 : ℚ) ^ (splitOnChar '.' s.data).getLast!.length)
  | _ => 0

def pyFloatOf : JVal → ℚ
  | .s t => parseDecStr t
  | .i n => (n : ℚ)
  | .rat r => r
  | _ => 0

/-- `row.get(k, {})` followed by use as a dict; in every call site in
scope the value, when present, is a dict. -/
def subDict (row : Row) (k : String) : Row :=
  match dictGetD row k (.obj []) with
  | .obj kvs => kvs
  | _ => []

/-- MOCK_KEYWORDS of mock_data.py lines 157-202. -/
def MOCK_KEYWORDS : List Row :=
  [[("adGroupCriterion", .obj [("keyword",
      .obj [("text", .s "buy product online"), ("matchType", .s "EXACT")])]),
    ("campaign", .obj [("name", .s "Search - Brand Terms")]),
    ("adGroup", .obj [("name", .s "Brand - Exact Match")]),
    ("metrics", .obj [("impressions", .s "25000"), ("clicks", .s "2100"),
      ("costMicros", .s "1050000000"), ("conversions", .s "105"),
      ("ctr", .s "0.084"), ("averageCpc", .s "500000")])],
   [("adGroupCriterion", .obj [("keyword",
      .obj [("text", .s "best deals"), ("matchType", .s "PHRASE")])]),
    ("campaign", .obj [("name", .s "Search - Brand Terms")]),
    ("adGroup", .obj [("name", .s "Brand - Phrase Match")]),
    ("metrics", .obj [("impressions", .s "18000"), ("clicks", .s "1400"),
      ("costMicros", .s "700000000"), ("conversions", .s "70"),
      ("ctr", .s "0.078"), ("averageCpc", .s "500000")])]]

/-- MOCK_SEARCH_TERMS of mock_data.py lines 204-241. -/
def MOCK_SEARCH_TERMS : List Row :=
  [[("searchTermView", .obj [("searchTerm", .s "buy product online free shipping"),
      ("status", .s "NONE")]),
    ("campaign", .obj [("name", .s "Search - Brand Terms")]),
    ("adGroup", .obj [("name", .s "Brand - Exact Match")]),
    ("metrics", .obj [("impressions", .s "1200"), ("clicks", .s "98"),
      ("costMicros", .s "49000000"), ("conversions", .s "12")])],
   [("searchTermView", .obj [("searchTerm", .s "best deals near me"),
      ("status", .s "NONE")]),
    ("campaign", .obj [("name", .s "Search - Brand Terms")]),
    ("adGroup", .obj [("name", .s "Brand - Phrase Match")]),
    ("metrics", .obj [("impressions", .s "850"), ("clicks", .s "65"),
      ("costMicros", .s "32500000"), ("conversions", .s "8")])]]

/-- MOCK_BUDGETS of mock_data.py lines 243-268. -/
def MOCK_BUDGETS : List Row :=
  [[("campaign", .obj [("id", .s "12345678901"),
      ("name", .s "Search - Brand Terms"), ("status", .s "ENABLED")]),
    ("campaignBudget", .obj [("amountMicros", .s "10000000000"),
      ("status", .s "ENABLED"), ("deliveryMethod", .s "STANDARD")])],
   [("campaign", .obj [("id", .s "12345678902"),
      ("name", .s "Display - Remarketing"), ("status", .s "ENABLED")]),
    ("campaignBudget", .obj [("amountMicros", .s "5000000000"),
      ("status", .s "ENABLED"), ("deliveryMethod", .s "STANDARD")])]]

/-- MOCK_CONVERSIONS of mock_data.py lines 270-297. -/
def MOCK_CONVERSIONS : List Row :=
  [[("campaign", .obj [("id", .s "12345678901"),
      ("name", .s "Search - Brand Terms")]),
    ("metrics", .obj [("conversions", .s "425"), ("conversionsValue", .s "21250.00"),
      ("costMicros", .s "4250000000"), ("costPerConversion", .s "10000000"),
      ("conversionsFromInteractionsRate", .s "0.05")])],
   [("campaign", .obj [("id", .s "12345678902"),
      ("name", .s "Display - Remarketing")]),
    ("metrics", .obj [("conversions", .s "180"), ("conversionsValue", .s "9000.00"),
      ("costMicros", .s "3600000000"), ("costPerConversion", .s "20000000"),
      ("conversionsFromInteractionsRate", .s "0.015")])]]

/-- The per-row dict built by get_keyword_performance (reporting.py lines
34-49, identical to 75-91). -/
def keywordPerfRow (row : Row) : Row :=
  let keyword := subDict (subDict row "adGroupCriterion") "keyword"
  let campaign := subDict row "campaign"
  let adGroup := subDict row "adGroup"
  let metrics := subDict row "metrics"
  [("keyword", dictGet keyword "text"),
   ("match_type", dictGet keyword "matchType"),
   ("campaign_name", dictGet campaign "name"),
   ("ad_group_name", dictGet adGroup "name"),
   ("impressions", .i (pyIntOf (dictGetD metrics "impressions" (.i 0)))),
   ("clicks", .i (pyIntOf (dictGetD metrics "clicks" (.i 0)))),
   ("cost_micros", .i (pyIntOf (dictGetD metrics "costMicros" (.i 0)))),
   ("conversions", .rat (pyFloatOf (dictGetD metrics "conversions" (.i 0)))),
   ("ctr", .rat (pyFloatOf (dictGetD metrics "ctr" (.i 0)))),
   ("average_cpc", .i (pyIntOf (dictGetD metrics "averageCpc" (.i 0))))]

/-- The per-row dict built by get_search_terms_report (reporting.py lines
117-130, identical to 153-167). -/
def searchTermRow (row : Row) : Row :=
  let stv := subDict row "searchTermView"
  let campaign := subDict row "campaign"
  let adGroup := subDict row "adGroup"
  let metrics := subDict row "metrics"
  [("search_term", dictGet stv "searchTerm"),
   ("status", dictGet stv "status"),
   ("campaign_name", dictGet campaign "name"),
   ("ad_group_name", dictGet adGroup "name"),
   ("impressions", .i (pyIntOf (dictGetD metrics "impressions" (.i 0)))),
   ("clicks", .i (pyIntOf (dictGetD metrics "clicks" (.i 0)))),
   ("cost_micros", .i (pyIntOf (dictGetD metrics "costMicros" (.i 0)))),
   ("conversions", .rat (pyFloatOf (dictGetD metrics "conversions" (.i 0))))]

/-- The per-row dict built by get_budget_report (reporting.py lines
188-199, identical to 221-232). -/
def budgetRow (row : Row) : Row :=
  let campaign := subDict row "campaign"
  let budget := subDict row "campaignBudget"
  [("campaign_id", dictGet campaign "id"),
   ("campaign_name", dictGet campaign "name"),
   ("campaign_status", dictGet campaign "status"),
   ("daily_budget_micros", .i (pyIntOf (dictGetD budget "amountMicros" (.i 0)))),
   ("total_budget_micros", dictGet budget "totalAmountMicros"),
   ("budget_status", dictGet budget "status"),
   ("delivery_method", dictGet budget "deliveryMethod")]

/-- The per-row dict built by get_conversion_report (reporting.py lines
257-268, identical to 290-302). -/
def conversionRow (row : Row) : Row :=
  let campaign := subDict row "campaign"
  let metrics := subDict row "metrics"
  [("campaign_id", dictGet campaign "id"),
   ("campaign_name", dictGet campaign "name"),
   ("conversions", .rat (pyFloatOf (dictGetD metrics "conversions" (.i 0)))),
   ("conversions_value", .rat (pyFloatOf (dictGetD metrics "conversionsValue" (.i 0)))),
   ("cost_micros", .i (pyIntOf (dictGetD metrics "costMicros" (.i 0)))),
   ("cost_per_conversion",
     .rat (pyFloatOf (dictGetD metrics "costPerConversion" (.i 0)))),
   ("conversion_rate",
     .rat (pyFloatOf (dictGetD metrics "conversionsFromInteractionsRate" (.i 0))))]

/-- One network search call plus the credential resolution it performs,
versus none at all in mock mode. -/
structure ReportEffects where
  searchCalls : Nat
  credentialResolves : Nat

/-- The GAQL query string of get_keyword_performance (lines 52-69). -/
def keywordQuery (days limit : Nat) : String :=
  "\n        SELECT\n            keyword_view.resource_name,\n            " ++
  "ad_group_criterion.keyword.text,\n            " ++
  "ad_group_criterion.keyword.match_type,\n            ad_group.name,\n" ++
  "            campaign.name,\n            metrics.impressions,\n" ++
  "            metrics.clicks,\n            metrics.cost_micros,\n" ++
  "            metrics.conversions,\n            metrics.ctr,\n" ++
  "            metrics.average_cpc\n        FROM keyword_view\n" ++
  "        WHERE segments.date DURING LAST_" ++ toString days ++ "_DAYS\n" ++
  "        ORDER BY metrics.impressions DESC\n        LIMIT " ++
  toString limit ++ "\n    "

/-- The GAQL query string of get_search_terms_report (lines 133-147). -/
def searchTermsQuery (days limit : Nat) : String :=
  "\n        SELECT\n            search_term_view.search_term,\n" ++
  "            search_term_view.status,\n            campaign.name,\n" ++
  "            ad_group.name,\n            metrics.impressions,\n" ++
  "            metrics.clicks,\n            metrics.cost_micros,\n" ++
  "            metrics.conversions\n        FROM search_term_view\n" ++
  "        WHERE segments.date DURING LAST_" ++ toString days ++ "_DAYS\n" ++
  "        ORDER BY metrics.impressions DESC\n        LIMIT " ++
  toString limit ++ "\n    "

/-- The GAQL query string of get_budget_report (lines 202-215). -/
def budgetQuery : String :=
  "\n        SELECT\n            campaign.id,\n            campaign.name,\n" ++
  "            campaign.status,\n            campaign_budget.amount_micros,\n" ++
  "            campaign_budget.total_amount_micros,\n" ++
  "            campaign_budget.status,\n" ++
  "            campaign_budget.delivery_method\n        FROM campaign\n" ++
  "        WHERE campaign.status != " ++ pyQuote "REMOVED" ++ "\n" ++
  "        ORDER BY campaign.name\n        LIMIT 50\n    "

/-- The GAQL query string of get_conversion_report (lines 271-285). -/
def conversionQuery (days limit : Nat) : String :=
  "\n        SELECT\n            campaign.id,\n            campaign.name,\n" ++
  "            metrics.conversions,\n            metrics.conversions_value,\n" ++
  "            metrics.cost_micros,\n            metrics.cost_per_conversion,\n" ++
  "            metrics.conversions_from_interactions_rate\n        FROM campaign\n" ++
  "        WHERE segments.date DURING LAST_" ++ toString days ++ "_DAYS\n" ++
  "            AND metrics.conversions > 0\n" ++
  "        ORDER BY metrics.conversions DESC\n        LIMIT " ++
  toString limit ++ "\n    "

/-- get_keyword_performance of reporting.py lines 13-93. `searchApi`
models `client.search` followed by `.get("results", [])`: calling it is
one network search and one credential resolution, counted in the
effects; the mock branch never calls it. `limit` models the nonnegative
slice bound of `MOCK_KEYWORDS[:limit]` and the query LIMIT. -/
def get_keyword_performance (usingMockData : Bool) (searchApi : String → List Row)
    (days limit : Nat) : List Row × ReportEffects :=
  if usingMockData then
    ((MOCK_KEYWORDS.take limit).map keywordPerfRow, ⟨0, 0⟩)
  else
    ((searchApi (keywordQuery days limit)).map keywordPerfRow, ⟨1, 1⟩)

/-- get_search_terms_report of reporting.py lines 96-169. -/
def get_search_terms_report (usingMockData : Bool) (searchApi : String → List Row)
    (days limit : Nat) : List Row × ReportEffects :=
  if usingMockData then
    ((MOCK_SEARCH_TERMS.take limit).map searchTermRow, ⟨0, 0⟩)
  else
    ((searchApi (searchTermsQuery days limit)).map searchTermRow, ⟨1, 1⟩)

/-- get_budget_report of reporting.py lines 172-234 (no limit
parameter: the mock branch renders all of MOCK_BUDGETS). -/
def get_budget_report (usingMockData : Bool) (searchApi : String → List Row) :
    List Row × ReportEffects :=
  if usingMockData then
    (MOCK_BUDGETS.map budgetRow, ⟨0, 0⟩)
  else
    ((searchApi budgetQuery).map budgetRow, ⟨1, 1⟩)

/-- get_conversion_report of reporting.py lines 237-303. -/
def get_conversion_report (usingMockData : Bool) (searchApi : String → List Row)
    (days limit : Nat) : List Row × ReportEffects :=
  if usingMockData then
    ((MOCK_CONVERSIONS.take limit).map conversionRow, ⟨0, 0⟩)
  else
    ((searchApi (conversionQuery days limit)).map conversionRow, ⟨1, 1⟩)

/-- C10: whenever the developer token contains a mock pattern, or a
configured credentials path contains a mock pattern or names a missing
file, or neither credential setting is configured, mock mode is detected,
and every reporting function then returns the transform of its static
fixture (cut to the given limit where the function takes one) with zero
search calls and zero credential resolutions. -/
theorem mock_mode_reports (devTok credPath : Option String) (pathExists : Bool)
    (searchApi : String → List Row) (days limit : Nat)
    (h : (∃ s, devTok = some s ∧ containsMockPattern s = true) ∨
         (∃ p, credPath = some p ∧ p ≠ "" ∧
            (containsMockPattern p = true ∨ pathExists = false)) ∨
         (truthy devTok = false ∧ truthy credPath = false)) :
    detect_mock_mode devTok credPath pathExists = true ∧
    get_keyword_performance (detect_mock_mode devTok credPath pathExists)
        searchApi days limit =
      ((MOCK_KEYWORDS.take limit).map keywordPerfRow, ⟨0, 0⟩) ∧
    get_search_terms_report (detect_mock_mode devTok credPath pathExists)
        searchApi days limit =
      ((MOCK_SEARCH_TERMS.take limit).map searchTermRow, ⟨0, 0⟩) ∧
    get_budget_report (detect_mock_mode devTok credPath pathExists) searchApi =
      (MOCK_BUDGETS.map budgetRow, ⟨0, 0⟩) ∧
    get_conversion_report (detect_mock_mode devTok credPath pathExists)
        searchApi days limit =
      ((MOCK_CONVERSIONS.take limit).map conversionRow, ⟨0, 0⟩) := by
  have hd : detect_mock_mode devTok credPath pathExists = true := by
    unfold detect_mock_mode
    rcases h with ⟨s, rfl, hs⟩ | ⟨p, rfl, hp, hps⟩ | ⟨h1, h2⟩
    · have hns : s ≠ "" := by
        intro he
        subst he
        exact absurd hs (by decide)
      have ht : truthy (some s) = true := by simp [truthy, hns]
      simp [ht, hs]
    · have ht : truthy (some p) = true := by simp [truthy, hp]
      cases hA : (truthy devTok && containsMockPattern (devTok.getD "")) with
      | true => simp [hA]
      | false =>
          rcases hps with hp2 | hp2
          · simp [hA, ht, hp2]
          · cases hB : containsMockPattern p with
            | true => simp [hA, ht, hB]
            | false => simp [hA, ht, hB, hp2]
    · simp [h1, h2]
  refine ⟨hd, ?_, ?_, ?_, ?_⟩ <;> rw [hd] <;> rfl

/-- C10 (witness): a developer token containing "test" puts the client in
mock mode; with limit 1 each limited report returns exactly the transform
of the first fixture row and no search or credential effect. -/
theorem mock_mode_reports_witness :
    detect_mock_mode (some "test-token") none true = true ∧
    get_keyword_performance (detect_mock_mode (some "test-token") none true)
        (fun _ => []) 30 1 =
      ((MOCK_KEYWORDS.take 1).map keywordPerfRow, ⟨0, 0⟩) ∧
    get_search_terms_report (detect_mock_mode (some "test-token") none true)
        (fun _ => []) 30 1 =
      ((MOCK_SEARCH_TERMS.take 1).map searchTermRow, ⟨0, 0⟩) ∧
    get_budget_report (detect_mock_mode (some "test-token") none true)
        (fun _ => []) =
      (MOCK_BUDGETS.map budgetRow, ⟨0, 0⟩) ∧
    get_conversion_report (detect_mock_mode (some "test-token") none true)
        (fun _ => []) 30 1 =
      ((MOCK_CONVERSIONS.take 1).map conversionRow, ⟨0, 0⟩) :=
  mock_mode_reports (some "test-token") none true (fun _ => []) 30 1
    (Or.inl ⟨"test-token", rfl, rfl⟩)
